import Mathlib

/-!
Shallow embedding of the sitrans-terrenos core (src/realestate/data_loader.py
and src/realestate/agent.py): the listing data model, the eligibility filter
`SearchCriteria.matches`, the scoring engine `_score_listing` with its
transport sub-algorithm, and the ranking orchestrator `search`.
Machine floats are modelled by exact rationals.
-/

/-- Transport-info values as they occur in listing JSON: numbers, booleans or
strings (`data_loader.py` stores the raw `transport` mapping). -/
inductive TVal where
  | num (q : ℚ)
  | bool (b : Bool)
  | str (s : String)
deriving DecidableEq

/-- Python truthiness of a transport value. -/
def TVal.truthy : TVal → Bool
  | .num q => decide (q ≠ 0)
  | .bool b => b
  | .str s => decide (s ≠ "")

/-- The `isinstance(value, (int, float))` view of a value: Python booleans are
ints, so they count as numbers (True = 1, False = 0). -/
def TVal.asNum : TVal → Option ℚ
  | .num q => some q
  | .bool b => some (if b then 1 else 0)
  | .str _ => none

/-- Python truthiness of `dict.get(key)`: `None` (absent key) is falsy. -/
def optTruthy : Option TVal → Bool
  | none => false
  | some v => v.truthy

/-- The fixed region-to-macrozone table `MACROZONE_BY_REGION` of
`data_loader.py`, including the diacritic/apostrophe spelling variants. -/
def MACROZONE_BY_REGION : List (String × String) :=
  [("Arica y Parinacota", "Norte Grande"),
   ("Tarapacá", "Norte Grande"),
   ("Antofagasta", "Norte Grande"),
   ("Atacama", "Norte Chico"),
   ("Coquimbo", "Norte Chico"),
   ("Valparaíso", "Zona Centro"),
   ("Metropolitana de Santiago", "Zona Centro"),
   ("Libertador General Bernardo O\x27Higgins", "Zona Centro"),
   ("Libertador General Bernardo O’Higgins", "Zona Centro"),
   ("O\x27Higgins", "Zona Centro"),
   ("O’Higgins", "Zona Centro"),
   ("Maule", "Zona Centro-Sur"),
   ("Ñuble", "Zona Sur"),
   ("Nuble", "Zona Sur"),
   ("Biobío", "Zona Sur"),
   ("Biobio", "Zona Sur"),
   ("La Araucanía", "Zona Sur"),
   ("Los Ríos", "Zona Sur"),
   ("Los Lagos", "Zona Austral"),
   ("Aysén del General Carlos Ibáñez del Campo", "Zona Austral"),
   ("Aysen del General Carlos Ibanez del Campo", "Zona Austral"),
   ("Magallanes y de la Antártica Chilena", "Zona Austral")]

/-- The `Listing` dataclass of `data_loader.py`. -/
structure Listing where
  id : String
  name : String
  region : String
  province : String
  commune : String
  locality : String
  property_type : String
  area_m2 : ℚ
  price_per_m2 : ℚ
  zoning : String
  services : List String
  transport : List (String × TVal)
  topography : String
  notes : String := ""
  url : String := ""
deriving DecidableEq

/-- Derived property `Listing.total_price = area_m2 * price_per_m2`. -/
def Listing.total_price (self : Listing) : ℚ :=
  self.area_m2 * self.price_per_m2

/-- Derived property `Listing.macrozone`: region looked up in
`MACROZONE_BY_REGION` with default `"Zona Desconocida"`. -/
def Listing.macrozone (self : Listing) : String :=
  (MACROZONE_BY_REGION.lookup self.region).getD "Zona Desconocida"

/-- The `SearchCriteria` dataclass of `agent.py` with its neutral defaults. -/
structure SearchCriteria where
  preferred_regions : List String := []
  preferred_macrozones : List String := []
  target_zonings : List String := []
  min_area_m2 : ℚ := 0
  min_area_hectares : ℚ := 0
  max_total_price : Option ℚ := none
  max_price_per_m2 : Option ℚ := none
  required_services : List String := []
  preferred_services : List String := []
  transport_importance : List (String × ℚ) := []
  desired_property_types : List String := []
deriving DecidableEq

/-- The derived property `SearchCriteria._area_threshold_m2`:
`max(min_area_m2, 0)`, raised to `min_area_hectares * 10_000` when the
hectares field is truthy (non-zero). -/
def SearchCriteria._area_threshold_m2 (self : SearchCriteria) : ℚ :=
  let min_m2 := max self.min_area_m2 0
  if self.min_area_hectares ≠ 0 then max min_m2 (self.min_area_hectares * 10000)
  else min_m2

/-- Python's `str.lower()`: lower-case every character (per-character map,
stated over the string's character list so that it evaluates by reduction). -/
def pyLower (s : String) : String :=
  String.mk (s.data.map Char.toLower)

/-- Case-insensitive membership: the filter builds a set of lower-cased
entries and tests the lower-cased candidate against it. -/
def lowerMem (xs : List String) (x : String) : Bool :=
  (xs.map pyLower).contains (pyLower x)

/-- Macrozone rule of `SearchCriteria.matches` (permissive when the field is
empty). -/
def SearchCriteria.macrozoneFilterOk (self : SearchCriteria) (listing : Listing) : Bool :=
  self.preferred_macrozones.isEmpty || lowerMem self.preferred_macrozones listing.macrozone

/-- Region rule of `SearchCriteria.matches`. -/
def SearchCriteria.regionFilterOk (self : SearchCriteria) (listing : Listing) : Bool :=
  self.preferred_regions.isEmpty || lowerMem self.preferred_regions listing.region

/-- Property-type rule of `SearchCriteria.matches`. -/
def SearchCriteria.typeFilterOk (self : SearchCriteria) (listing : Listing) : Bool :=
  self.desired_property_types.isEmpty || lowerMem self.desired_property_types listing.property_type

/-- Zoning rule of `SearchCriteria.matches`. -/
def SearchCriteria.zoningFilterOk (self : SearchCriteria) (listing : Listing) : Bool :=
  self.target_zonings.isEmpty || lowerMem self.target_zonings listing.zoning

/-- Area rule of `SearchCriteria.matches`: reject when
`listing.area_m2 < _area_threshold_m2`. -/
def SearchCriteria.areaFilterOk (self : SearchCriteria) (listing : Listing) : Bool :=
  decide (self._area_threshold_m2 ≤ listing.area_m2)

/-- Total-price rule: active exactly when `max_total_price is not None`. -/
def SearchCriteria.totalPriceFilterOk (self : SearchCriteria) (listing : Listing) : Bool :=
  match self.max_total_price with
  | none => true
  | some m => decide (listing.total_price ≤ m)

/-- Price-per-m² rule: active exactly when `max_price_per_m2 is not None`. -/
def SearchCriteria.pricePerM2FilterOk (self : SearchCriteria) (listing : Listing) : Bool :=
  match self.max_price_per_m2 with
  | none => true
  | some m => decide (listing.price_per_m2 ≤ m)

/-- Required-services rule: each required service must appear (lower-cased)
among the listing's lower-cased services. -/
def SearchCriteria.servicesFilterOk (self : SearchCriteria) (listing : Listing) : Bool :=
  self.required_services.all (fun s => (listing.services.map pyLower).contains (pyLower s))

/-- `SearchCriteria.matches`: the conjunction of the eight short-circuiting
rules, in source order. -/
def SearchCriteria.matches (self : SearchCriteria) (listing : Listing) : Bool :=
  self.macrozoneFilterOk listing && self.regionFilterOk listing &&
  self.typeFilterOk listing && self.zoningFilterOk listing &&
  self.areaFilterOk listing && self.totalPriceFilterOk listing &&
  self.pricePerM2FilterOk listing && self.servicesFilterOk listing

/-- The five named dimensions of the breakdown mapping produced by
`_score_listing`. -/
structure Breakdown where
  ubicacion : ℚ
  servicios : ℚ
  precio : ℚ
  conectividad : ℚ
  superficie : ℚ
deriving DecidableEq

/-- The sum of the five breakdown entries. -/
def Breakdown.total (b : Breakdown) : ℚ :=
  b.ubicacion + b.servicios + b.precio + b.conectividad + b.superficie

/-- Location raw value of `_score_listing` (the membership tests here compare
raw strings, case-sensitively, unlike the filter). -/
def locationValue (listing : Listing) (criteria : SearchCriteria) : ℚ :=
  if !criteria.preferred_regions.isEmpty then
    if listing.region ∈ criteria.preferred_regions then 1.0 else 0.4
  else if !criteria.preferred_macrozones.isEmpty then
    if listing.macrozone ∈ criteria.preferred_macrozones then 0.9 else 0.5
  else 0.7

/-- Lower-cased set of a list of service names (Python set comprehension). -/
def lowerSet (xs : List String) : List String :=
  (xs.map pyLower).dedup

/-- Size of the intersection of two service sets. -/
def interCount (xs ys : List String) : ℕ :=
  (xs.filter (fun s => ys.contains s)).length

/-- Coverage of required services: `len(required & services) / len(required)`
when the required set is non-empty, else 1.0. -/
def requiredCoverage (listing : Listing) (criteria : SearchCriteria) : ℚ :=
  let services := lowerSet listing.services
  let required := lowerSet criteria.required_services
  if !required.isEmpty then (interCount required services : ℚ) / required.length
  else 1.0

/-- Preferred-services sub-score: intersection ratio when non-empty, else 0.5. -/
def preferredCoverage (listing : Listing) (criteria : SearchCriteria) : ℚ :=
  let services := lowerSet listing.services
  let preferred := lowerSet criteria.preferred_services
  if !preferred.isEmpty then (interCount preferred services : ℚ) / preferred.length
  else 0.5

/-- Services dimension value: `0.4 * (0.6 * coverage + 0.4 * preferred_score)`. -/
def servicesScore (listing : Listing) (criteria : SearchCriteria) : ℚ :=
  0.4 * (0.6 * requiredCoverage listing criteria + 0.4 * preferredCoverage listing criteria)

/-- Price component of `_score_listing`. The guards are Python truthiness
tests (`if criteria.max_total_price:`), so a cap of exactly 0 behaves like an
unset cap. -/
def priceComponent (listing : Listing) (criteria : SearchCriteria) : ℚ :=
  let base :=
    match criteria.max_total_price with
    | some m =>
        if m ≠ 0 then max 0.0 (1.0 - min (listing.total_price / m) 1.5) else 0.6
    | none => 0.6
  match criteria.max_price_per_m2 with
  | some m =>
      if m ≠ 0 then (base + max 0.0 (1.0 - min (listing.price_per_m2 / m) 1.5)) / 2
      else base
  | none => base

/-- `_mode_availability` of `agent.py`. -/
def RealEstateSearchAgent._mode_availability (mode : String) (data : List (String × TVal)) : ℚ :=
  let mode := pyLower mode
  if mode = "carretera" then
    match (data.lookup "distancia_km").bind TVal.asNum with
    | some distance => max 0.0 (1.0 - min (distance / 10.0) 1.0)
    | none => if (data.lookup "carretera").isSome then 0.7 else 0.0
  else if mode = "ferrocarril" then
    match data.lookup "ferrocarril" with
    | some (.bool b) => if b then 1.0 else 0.0
    | v => if optTruthy v then 0.5 else 0.0
  else if mode = "aeropuerto" then
    match (data.lookup "aeropuerto_km").bind TVal.asNum with
    | some distance => max 0.0 (1.0 - min (distance / 50.0) 1.0)
    | none => 0.0
  else if optTruthy (data.lookup mode) then 0.5 else 0.0

/-- Accumulation loop of `_transport_score`: sum of
`(value / total) * availability(mode)` over the importance mapping. -/
def transportAccum (data : List (String × TVal)) (total : ℚ) : List (String × ℚ) → ℚ
  | [] => 0
  | p :: rest =>
      p.2 / total * RealEstateSearchAgent._mode_availability p.1 data +
      transportAccum data total rest

/-- `_transport_score`: flat 0.6 for an empty importance mapping; otherwise
weights normalized by their sum (with a zero sum replaced by 1). -/
def RealEstateSearchAgent._transport_score (listing : Listing)
    (importance : List (String × ℚ)) : ℚ :=
  if importance.isEmpty then 0.6
  else
    let total := (importance.map (fun p => p.2)).sum
    let total := if total = 0 then 1.0 else total
    transportAccum listing.transport total importance

/-- Area dimension raw value: `min((area_m2 / max(threshold, 1)) / 4, 1.0)`. -/
def areaScoreValue (listing : Listing) (criteria : SearchCriteria) : ℚ :=
  let area_ratio := listing.area_m2 / max criteria._area_threshold_m2 1
  min (area_ratio / 4) 1.0

/-- `_score_listing`: the five weighted dimensions, accumulated into the
running total in source order, plus the breakdown mapping (highlights are
display-only and omitted). -/
def RealEstateSearchAgent._score_listing (listing : Listing)
    (criteria : SearchCriteria) : ℚ × Breakdown :=
  let ubic := locationValue listing criteria * 0.25
  let serv := servicesScore listing criteria
  let prec := priceComponent listing criteria * 0.2
  let conn := RealEstateSearchAgent._transport_score listing criteria.transport_importance * 0.15
  let sup := areaScoreValue listing criteria * 0.2
  (0.0 + ubic + serv + prec + conn + sup,
   { ubicacion := ubic, servicios := serv, precio := prec,
     conectividad := conn, superficie := sup })

/-- The `SearchResult` record (listing reference, scalar score, breakdown). -/
structure SearchResult where
  listing : Listing
  score : ℚ
  breakdown : Breakdown
deriving DecidableEq

/-- The agent: holds the immutable listing repository. -/
structure RealEstateSearchAgent where
  _listings : List Listing

/-- Comparison used by `results.sort(key=lambda r: r.score, reverse=True)`:
a stable sort that puts larger scores first. -/
def resultLe (a b : SearchResult) : Bool :=
  decide (b.score ≤ a.score)

/-- The filtered and scored candidate list, in repository order (the loop body
of `search` before sorting). -/
def RealEstateSearchAgent.candidateResults (self : RealEstateSearchAgent)
    (criteria : SearchCriteria) : List SearchResult :=
  (self._listings.filter (fun L => criteria.matches L)).map
    (fun L =>
      let sb := RealEstateSearchAgent._score_listing L criteria
      { listing := L, score := sb.1, breakdown := sb.2 })

/-- `search`: filter, score, stable-sort descending by score, truncate. -/
def RealEstateSearchAgent.search (self : RealEstateSearchAgent)
    (criteria : SearchCriteria) (top_n : ℕ) : List SearchResult :=
  ((self.candidateResults criteria).mergeSort resultLe).take top_n

/-! ### `SearchCriteria.from_dict`

`from_dict` forwards the whole input mapping to the dataclass constructor
(`cls(**kwargs)`): a key that is not a field name raises `TypeError` before
anything is constructed. An entry of the input mapping is either a
well-shaped known field or an unrecognized key. -/

/-- One key/value entry of the mapping handed to `SearchCriteria.from_dict`. -/
inductive CriteriaField where
  | preferred_regions (v : List String)
  | preferred_macrozones (v : List String)
  | target_zonings (v : List String)
  | min_area_m2 (v : ℚ)
  | min_area_hectares (v : ℚ)
  | max_total_price (v : Option ℚ)
  | max_price_per_m2 (v : Option ℚ)
  | required_services (v : List String)
  | preferred_services (v : List String)
  | transport_importance (v : List (String × ℚ))
  | desired_property_types (v : List String)
  | unknownField (key : String)
deriving DecidableEq

/-- Whether the entry's key is not a recognized constraint field. -/
def CriteriaField.isUnknownKey : CriteriaField → Bool
  | .unknownField _ => true
  | _ => false

/-- The key of an entry, used in the `TypeError` payload. -/
def CriteriaField.keyName : CriteriaField → String
  | .preferred_regions _ => "preferred_regions"
  | .preferred_macrozones _ => "preferred_macrozones"
  | .target_zonings _ => "target_zonings"
  | .min_area_m2 _ => "min_area_m2"
  | .min_area_hectares _ => "min_area_hectares"
  | .max_total_price _ => "max_total_price"
  | .max_price_per_m2 _ => "max_price_per_m2"
  | .required_services _ => "required_services"
  | .preferred_services _ => "preferred_services"
  | .transport_importance _ => "transport_importance"
  | .desired_property_types _ => "desired_property_types"
  | .unknownField key => key

/-- Assignment of one recognized keyword argument to its criteria field. -/
def SearchCriteria.applyField (c : SearchCriteria) : CriteriaField → SearchCriteria
  | .preferred_regions v => { c with preferred_regions := v }
  | .preferred_macrozones v => { c with preferred_macrozones := v }
  | .target_zonings v => { c with target_zonings := v }
  | .min_area_m2 v => { c with min_area_m2 := v }
  | .min_area_hectares v => { c with min_area_hectares := v }
  | .max_total_price v => { c with max_total_price := v }
  | .max_price_per_m2 v => { c with max_price_per_m2 := v }
  | .required_services v => { c with required_services := v }
  | .preferred_services v => { c with preferred_services := v }
  | .transport_importance v => { c with transport_importance := v }
  | .desired_property_types v => { c with desired_property_types := v }
  | .unknownField _ => c

/-- `SearchCriteria.from_dict`: `cls(**dict(data))`. A `TypeError` (here, an
`Except.error` carrying the offending key) is raised when any key is not a
recognized field; otherwise the criteria are built with absent fields at
their neutral defaults. -/
def SearchCriteria.from_dict (data : List CriteriaField) : Except String SearchCriteria :=
  match data.find? (fun f => f.isUnknownKey) with
  | some f => Except.error f.keyName
  | none => Except.ok (data.foldl SearchCriteria.applyField {})

/-! ### Division-checked variants

Each `/` of the scoring path is replaced by `cdiv`, which fails on a zero
denominator; proving the checked engine always returns `some` of the unchecked
value shows every division is guarded. -/

/-- Division that fails instead of using the ambient junk value at 0. -/
def cdiv (a b : ℚ) : Option ℚ :=
  if b = 0 then none else some (a / b)

/-- Checked form of `requiredCoverage`. -/
def requiredCoverageChecked (listing : Listing) (criteria : SearchCriteria) : Option ℚ :=
  let services := lowerSet listing.services
  let required := lowerSet criteria.required_services
  if !required.isEmpty then cdiv (interCount required services : ℚ) required.length
  else some 1.0

/-- Checked form of `preferredCoverage`. -/
def preferredCoverageChecked (listing : Listing) (criteria : SearchCriteria) : Option ℚ :=
  let services := lowerSet listing.services
  let preferred := lowerSet criteria.preferred_services
  if !preferred.isEmpty then cdiv (interCount preferred services : ℚ) preferred.length
  else some 0.5

/-- Checked form of `servicesScore`. -/
def servicesScoreChecked (listing : Listing) (criteria : SearchCriteria) : Option ℚ := do
  let coverage ← requiredCoverageChecked listing criteria
  let preferred_score ← preferredCoverageChecked listing criteria
  pure (0.4 * (0.6 * coverage + 0.4 * preferred_score))

/-- Checked form of `priceComponent`. -/
def priceComponentChecked (listing : Listing) (criteria : SearchCriteria) : Option ℚ := do
  let base ←
    match criteria.max_total_price with
    | some m =>
        if m ≠ 0 then do
          let r ← cdiv listing.total_price m
          pure (max 0.0 (1.0 - min r 1.5))
        else pure 0.6
    | none => pure 0.6
  match criteria.max_price_per_m2 with
  | some m =>
      if m ≠ 0 then do
        let r ← cdiv listing.price_per_m2 m
        let half ← cdiv (base + max 0.0 (1.0 - min r 1.5)) 2
        pure half
      else pure base
  | none => pure base

/-- Checked form of `_mode_availability`. -/
def modeAvailabilityChecked (mode : String) (data : List (String × TVal)) : Option ℚ :=
  let mode := pyLower mode
  if mode = "carretera" then
    match (data.lookup "distancia_km").bind TVal.asNum with
    | some distance => do
        let r ← cdiv distance 10.0
        pure (max 0.0 (1.0 - min r 1.0))
    | none => some (if (data.lookup "carretera").isSome then 0.7 else 0.0)
  else if mode = "ferrocarril" then
    match data.lookup "ferrocarril" with
    | some (.bool b) => some (if b then 1.0 else 0.0)
    | v => some (if optTruthy v then 0.5 else 0.0)
  else if mode = "aeropuerto" then
    match (data.lookup "aeropuerto_km").bind TVal.asNum with
    | some distance => do
        let r ← cdiv distance 50.0
        pure (max 0.0 (1.0 - min r 1.0))
    | none => some 0.0
  else some (if optTruthy (data.lookup mode) then 0.5 else 0.0)

/-- Checked form of `transportAccum`. -/
def transportAccumChecked (data : List (String × TVal)) (total : ℚ) :
    List (String × ℚ) → Option ℚ
  | [] => some 0
  | p :: rest => do
      let w ← cdiv p.2 total
      let a ← modeAvailabilityChecked p.1 data
      let acc ← transportAccumChecked data total rest
      pure (w * a + acc)

/-- Checked form of `_transport_score`. -/
def transportScoreChecked (listing : Listing) (importance : List (String × ℚ)) : Option ℚ :=
  if importance.isEmpty then some 0.6
  else
    let total := (importance.map (fun p => p.2)).sum
    let total := if total = 0 then 1.0 else total
    transportAccumChecked listing.transport total importance

/-- Checked form of `areaScoreValue`. -/
def areaScoreValueChecked (listing : Listing) (criteria : SearchCriteria) : Option ℚ := do
  let area_ratio ← cdiv listing.area_m2 (max criteria._area_threshold_m2 1)
  let quarter ← cdiv area_ratio 4
  pure (min quarter 1.0)

/-- Checked form of `_score_listing`. -/
def scoreListingChecked (listing : Listing) (criteria : SearchCriteria) :
    Option (ℚ × Breakdown) := do
  let ubic := locationValue listing criteria * 0.25
  let serv ← servicesScoreChecked listing criteria
  let precBase ← priceComponentChecked listing criteria
  let prec := precBase * 0.2
  let connBase ← transportScoreChecked listing criteria.transport_importance
  let conn := connBase * 0.15
  let supBase ← areaScoreValueChecked listing criteria
  let sup := supBase * 0.2
  pure (0.0 + ubic + serv + prec + conn + sup,
    { ubicacion := ubic, servicios := serv, precio := prec,
      conectividad := conn, superficie := sup })

/-- Fail-fast scoring loop over the surviving listings: the whole loop fails
as soon as one scoring call fails. -/
def scoreAllChecked (criteria : SearchCriteria) : List Listing → Option (List SearchResult)
  | [] => some []
  | L :: rest => do
      let sb ← scoreListingChecked L criteria
      let others ← scoreAllChecked criteria rest
      pure ({ listing := L, score := sb.1, breakdown := sb.2 : SearchResult } :: others)

/-- Checked form of `search`: any unguarded division anywhere in the scoring
of any surviving listing would make the whole call fail. -/
def RealEstateSearchAgent.searchChecked (self : RealEstateSearchAgent)
    (criteria : SearchCriteria) (top_n : ℕ) : Option (List SearchResult) := do
  let results ← scoreAllChecked criteria (self._listings.filter (fun L => criteria.matches L))
  pure ((results.mergeSort resultLe).take top_n)

/-! ### Concrete sample inputs used by witnesses and counterexamples -/

/-- A concrete listing with ample area (10 000 m² at 5 per m²). -/
def listingA : Listing :=
  { id := "t1", name := "Parcela A", region := "Maule", province := "Talca",
    commune := "Maule", locality := "Sector rural", property_type := "industrial",
    area_m2 := 10000, price_per_m2 := 5, zoning := "mixto",
    services := ["agua", "electricidad"], transport := [], topography := "plana" }

/-- A concrete listing of exactly 1 m². -/
def listingSmall : Listing :=
  { id := "t2", name := "Parcela B", region := "Maule", province := "Talca",
    commune := "Maule", locality := "Sector rural", property_type := "industrial",
    area_m2 := 1, price_per_m2 := 4, zoning := "mixto",
    services := ["electricidad"], transport := [], topography := "plana" }

/-! ### C1 -/

/-- C1: for every listing and criteria, the five breakdown values returned by
`_score_listing` sum to the returned total score within 1e-9 absolute
tolerance (in this exact-arithmetic model they sum to it exactly). -/
theorem score_breakdown_sums_to_total (L : Listing) (C : SearchCriteria) :
    |(RealEstateSearchAgent._score_listing L C).2.total -
      (RealEstateSearchAgent._score_listing L C).1| ≤ 1 / 1000000000 := by
  have h : (RealEstateSearchAgent._score_listing L C).2.total =
      (RealEstateSearchAgent._score_listing L C).1 := by
    simp [RealEstateSearchAgent._score_listing, Breakdown.total]
    ring
  rw [h, sub_self, abs_zero]
  norm_num

/-! ### C6 -/

/-- C6 as stated is false: with the default criteria the derived area
threshold is 0, so a 1 m² listing satisfies `area_m2 ≥ 4 × threshold`, yet
the divisor floors at `max(threshold, 1) = 1` and the superficie entry is
`min(1/4, 1) × 0.2 = 0.05`, not the full weight 0.2. -/
theorem area_saturation_fails_below_unit_threshold :
    4 * SearchCriteria._area_threshold_m2 {} ≤ listingSmall.area_m2 ∧
    (RealEstateSearchAgent._score_listing listingSmall {}).2.superficie ≠ 0.2 := by
  constructor
  · norm_num [SearchCriteria._area_threshold_m2, listingSmall]
  · norm_num [RealEstateSearchAgent._score_listing, areaScoreValue,
      SearchCriteria._area_threshold_m2, listingSmall]

/-- C6 amended: for every listing and criteria with
`area_m2 ≥ 4 × max(area_threshold_m2, 1)` (the floored divisor actually used
by the code), the superficie breakdown entry equals exactly 0.2. -/
theorem area_saturation (L : Listing) (C : SearchCriteria)
    (h : 4 * max C._area_threshold_m2 1 ≤ L.area_m2) :
    (RealEstateSearchAgent._score_listing L C).2.superficie = 0.2 := by
  have hM : (0 : ℚ) < max C._area_threshold_m2 1 :=
    lt_of_lt_of_le one_pos (le_max_right _ _)
  have h4 : (4 : ℚ) ≤ L.area_m2 / max C._area_threshold_m2 1 := by
    rw [le_div_iff₀ hM]
    linarith
  have hmin : min (L.area_m2 / max C._area_threshold_m2 1 / 4) (1 : ℚ) = 1 := by
    apply min_eq_right
    linarith
  simp [RealEstateSearchAgent._score_listing, areaScoreValue]
  rw [show (1.0 : ℚ) = 1 by norm_num, hmin]
  norm_num

/-- Witness for the amended C6: the 10 000 m² sample listing against the
default criteria (threshold 0, floored divisor 1) saturates at 0.2. -/
theorem area_saturation_witness :
    (RealEstateSearchAgent._score_listing listingA {}).2.superficie = 0.2 :=
  area_saturation listingA {}
    (by norm_num [SearchCriteria._area_threshold_m2, listingA])

/-! ### C7 -/

/-- The claim's price formula, stated in the spec's own words ("not set" read
as the scorer's guard being off): a second definition to be compared with the
source-derived `priceComponent`. -/
def priceComponentSpec (listing : Listing) (criteria : SearchCriteria) : ℚ :=
  let base :=
    match criteria.max_total_price with
    | none => 0.6
    | some m => max 0 (1 - min (listing.total_price / m) 1.5)
  match criteria.max_price_per_m2 with
  | none => base
  | some m => (base + max 0 (1 - min (listing.price_per_m2 / m) 1.5)) / 2

/-- C7: for every listing and criteria whose caps, when present, are nonzero
(a zero cap makes the claim's ratio undefined; see the zero-cap claim), the
precio breakdown entry equals `0.2 ×` the claim's price component. -/
theorem price_breakdown_formula (L : Listing) (C : SearchCriteria)
    (h1 : C.max_total_price ≠ some 0) (h2 : C.max_price_per_m2 ≠ some 0) :
    (RealEstateSearchAgent._score_listing L C).2.precio = 0.2 * priceComponentSpec L C := by
  have hPC : priceComponent L C = priceComponentSpec L C := by
    unfold priceComponent priceComponentSpec
    cases hm : C.max_total_price with
    | none =>
        cases hm2 : C.max_price_per_m2 with
        | none => norm_num
        | some m2 =>
            have : m2 ≠ 0 := by rintro rfl; exact h2 hm2
            simp [this]
            norm_num
    | some m =>
        have hm0 : m ≠ 0 := by rintro rfl; exact h1 hm
        cases hm2 : C.max_price_per_m2 with
        | none => simp [hm0]; norm_num
        | some m2 =>
            have : m2 ≠ 0 := by rintro rfl; exact h2 hm2
            simp [hm0, this]
            norm_num
  simp [RealEstateSearchAgent._score_listing, hPC]
  ring

/-- Witness for C7: a listing with total price 50 000 against caps of
100 000 total and 10 per m². -/
theorem price_breakdown_formula_witness :
    (RealEstateSearchAgent._score_listing listingA
      { max_total_price := some 100000, max_price_per_m2 := some 10 }).2.precio =
    0.2 * priceComponentSpec listingA
      { max_total_price := some 100000, max_price_per_m2 := some 10 } :=
  price_breakdown_formula listingA _ (by simp) (by simp)

/-! ### C8 -/

/-- C8: when the listing's region matches a preferred region only up to
letter case, the filter's region rule still passes (it lower-cases both
sides), while the scorer's case-sensitive membership test takes the
non-member branch, so the ubicación entry is `0.4 × 0.25 = 0.1`. -/
theorem region_case_asymmetry (L : Listing) (C : SearchCriteria)
    (hne : C.preferred_regions ≠ [])
    (hlow : lowerMem C.preferred_regions L.region = true)
    (hex : L.region ∉ C.preferred_regions) :
    C.regionFilterOk L = true ∧
    (RealEstateSearchAgent._score_listing L C).2.ubicacion = 0.1 := by
  constructor
  · simp [SearchCriteria.regionFilterOk, hlow]
  · have hemp : C.preferred_regions.isEmpty = false := by
      simpa [List.isEmpty_iff] using hne
    simp [RealEstateSearchAgent._score_listing, locationValue, hemp, hex]
    norm_num

/-- Witness for C8: region "Maule" against preferred regions `["maule"]`. -/
theorem region_case_asymmetry_witness :
    SearchCriteria.regionFilterOk { preferred_regions := ["maule"] } listingA = true ∧
    (RealEstateSearchAgent._score_listing listingA
      { preferred_regions := ["maule"] }).2.ubicacion = 0.1 :=
  region_case_asymmetry listingA { preferred_regions := ["maule"] }
    (by simp) (by decide) (by decide)

/-! ### C10 -/

/-- C10: a cap equal to exactly 0 is an active constraint for the filter
(whose guard is `is not None`) but is treated as unset by the scorer (whose
guard is truthiness): with `max_total_price = 0` every listing of positive
total price is rejected, while the precio entry is computed exactly as with
no cap; likewise for `max_price_per_m2 = 0`. -/
theorem zero_cap_filter_scorer_disagreement (L : Listing) (C : SearchCriteria) :
    (C.max_total_price = some 0 → 0 < L.total_price → C.matches L = false) ∧
    (C.max_total_price = some 0 →
      (RealEstateSearchAgent._score_listing L C).2.precio =
        (RealEstateSearchAgent._score_listing L
          { C with max_total_price := none }).2.precio) ∧
    (C.max_price_per_m2 = some 0 → 0 < L.price_per_m2 → C.matches L = false) ∧
    (C.max_price_per_m2 = some 0 →
      (RealEstateSearchAgent._score_listing L C).2.precio =
        (RealEstateSearchAgent._score_listing L
          { C with max_price_per_m2 := none }).2.precio) := by
  refine ⟨?_, ?_, ?_, ?_⟩
  · intro hz hpos
    have : C.totalPriceFilterOk L = false := by
      simp [SearchCriteria.totalPriceFilterOk, hz, not_le.mpr hpos]
    simp [SearchCriteria.matches, this]
  · intro hz
    simp [RealEstateSearchAgent._score_listing, priceComponent, hz]
  · intro hz hpos
    have : C.pricePerM2FilterOk L = false := by
      simp [SearchCriteria.pricePerM2FilterOk, hz, not_le.mpr hpos]
    simp [SearchCriteria.matches, this]
  · intro hz
    simp [RealEstateSearchAgent._score_listing, priceComponent, hz]

/-- Witness for C10: the sample listing (total price 50 000, 5 per m²)
against a zero total-price cap and against a zero per-m² cap. -/
theorem zero_cap_filter_scorer_disagreement_witness :
    SearchCriteria.matches { max_total_price := some 0 } listingA = false ∧
    (RealEstateSearchAgent._score_listing listingA
      { max_total_price := some 0 }).2.precio =
      (RealEstateSearchAgent._score_listing listingA
        { (({} : SearchCriteria)) with max_total_price := none }).2.precio ∧
    SearchCriteria.matches { max_price_per_m2 := some 0 } listingA = false ∧
    (RealEstateSearchAgent._score_listing listingA
      { max_price_per_m2 := some 0 }).2.precio =
      (RealEstateSearchAgent._score_listing listingA
        { (({} : SearchCriteria)) with max_price_per_m2 := none }).2.precio := by
  refine ⟨?_, ?_, ?_, ?_⟩
  · exact (zero_cap_filter_scorer_disagreement listingA { max_total_price := some 0 }).1
      rfl (by norm_num [Listing.total_price, listingA])
  · exact (zero_cap_filter_scorer_disagreement listingA { max_total_price := some 0 }).2.1 rfl
  · exact (zero_cap_filter_scorer_disagreement listingA
      { max_price_per_m2 := some 0 }).2.2.1 rfl (by norm_num [listingA])
  · exact (zero_cap_filter_scorer_disagreement listingA
      { max_price_per_m2 := some 0 }).2.2.2 rfl

/-! ### C2 -/

/-- C2: `matches` is false whenever any explicitly configured constraint is
violated (one conjunct per rule, in source order), and true when the criteria
carry no constraints at all — given the data model's invariant that listing
areas are non-negative, since even the neutral threshold 0 is compared
against the area. Every empty or unset constraint is permissive. -/
theorem matches_constraint_semantics (L : Listing) (C : SearchCriteria) :
    (C.preferred_macrozones ≠ [] → lowerMem C.preferred_macrozones L.macrozone = false →
      C.matches L = false) ∧
    (C.preferred_regions ≠ [] → lowerMem C.preferred_regions L.region = false →
      C.matches L = false) ∧
    (C.desired_property_types ≠ [] → lowerMem C.desired_property_types L.property_type = false →
      C.matches L = false) ∧
    (C.target_zonings ≠ [] → lowerMem C.target_zonings L.zoning = false →
      C.matches L = false) ∧
    (L.area_m2 < C._area_threshold_m2 → C.matches L = false) ∧
    (∀ m, C.max_total_price = some m → m < L.total_price → C.matches L = false) ∧
    (∀ m, C.max_price_per_m2 = some m → m < L.price_per_m2 → C.matches L = false) ∧
    (∀ s, s ∈ C.required_services →
      (L.services.map pyLower).contains (pyLower s) = false → C.matches L = false) ∧
    (C.preferred_macrozones = [] → C.preferred_regions = [] →
      C.desired_property_types = [] → C.target_zonings = [] →
      C.min_area_m2 = 0 → C.min_area_hectares = 0 →
      C.max_total_price = none → C.max_price_per_m2 = none →
      C.required_services = [] → 0 ≤ L.area_m2 → C.matches L = true) := by
  refine ⟨?_, ?_, ?_, ?_, ?_, ?_, ?_, ?_, ?_⟩
  · intro h1 h2
    have hemp : C.preferred_macrozones.isEmpty = false := by
      simpa [List.isEmpty_iff] using h1
    simp [SearchCriteria.matches, SearchCriteria.macrozoneFilterOk, hemp, h2]
  · intro h1 h2
    have hemp : C.preferred_regions.isEmpty = false := by
      simpa [List.isEmpty_iff] using h1
    simp [SearchCriteria.matches, SearchCriteria.regionFilterOk, hemp, h2]
  · intro h1 h2
    have hemp : C.desired_property_types.isEmpty = false := by
      simpa [List.isEmpty_iff] using h1
    simp [SearchCriteria.matches, SearchCriteria.typeFilterOk, hemp, h2]
  · intro h1 h2
    have hemp : C.target_zonings.isEmpty = false := by
      simpa [List.isEmpty_iff] using h1
    simp [SearchCriteria.matches, SearchCriteria.zoningFilterOk, hemp, h2]
  · intro h1
    have : C.areaFilterOk L = false := by
      simp [SearchCriteria.areaFilterOk, not_le.mpr h1]
    simp [SearchCriteria.matches, this]
  · intro m hm h1
    have : C.totalPriceFilterOk L = false := by
      simp [SearchCriteria.totalPriceFilterOk, hm, not_le.mpr h1]
    simp [SearchCriteria.matches, this]
  · intro m hm h1
    have : C.pricePerM2FilterOk L = false := by
      simp [SearchCriteria.pricePerM2FilterOk, hm, not_le.mpr h1]
    simp [SearchCriteria.matches, this]
  · intro s hs hcon
    have : C.servicesFilterOk L = false := by
      simp only [SearchCriteria.servicesFilterOk, List.all_eq_false]
      exact ⟨s, hs, by simp only [Bool.not_eq_true]; exact hcon⟩
    simp [SearchCriteria.matches, this]
  · intro h1 h2 h3 h4 h5 h6 h7 h8 h9 harea
    have hth : C._area_threshold_m2 = 0 := by
      simp [SearchCriteria._area_threshold_m2, h5, h6]
    simp [SearchCriteria.matches, SearchCriteria.macrozoneFilterOk,
      SearchCriteria.regionFilterOk, SearchCriteria.typeFilterOk,
      SearchCriteria.zoningFilterOk, SearchCriteria.areaFilterOk,
      SearchCriteria.totalPriceFilterOk, SearchCriteria.pricePerM2FilterOk,
      SearchCriteria.servicesFilterOk, h1, h2, h3, h4, h7, h8, h9, hth, harea]

/-- Witness for C2: the sample listing is rejected by a violated macrozone
constraint and accepted by the empty criteria. -/
theorem matches_constraint_semantics_witness :
    SearchCriteria.matches { preferred_macrozones := ["Zona Austral"] } listingA = false ∧
    SearchCriteria.matches {} listingA = true := by
  constructor
  · exact (matches_constraint_semantics listingA
      { preferred_macrozones := ["Zona Austral"] }).1 (by simp) (by decide)
  · exact (matches_constraint_semantics listingA {}).2.2.2.2.2.2.2.2
      rfl rfl rfl rfl rfl rfl rfl rfl rfl (by norm_num [listingA])

/-! ### C3 -/

/-- C3 as stated is false: `from_dict` forwards every key to the dataclass
constructor, so an unrecognized key raises a `TypeError` (modelled as
`Except.error` carrying the key) instead of being inert; the empty mapping,
by contrast, builds the default criteria. -/
theorem from_dict_unknown_key_raises :
    SearchCriteria.from_dict [CriteriaField.unknownField "zona"] = Except.error "zona" ∧
    SearchCriteria.from_dict [] = Except.ok {} :=
  ⟨rfl, rfl⟩

/-- C3 amended: `from_dict` succeeds exactly when every key of the input
mapping is a recognized constraint field; a single unrecognized key makes it
raise instead of treating the key as inert. -/
theorem from_dict_ok_iff_all_keys_known (data : List CriteriaField) :
    (∃ c, SearchCriteria.from_dict data = Except.ok c) ↔
      ∀ f ∈ data, f.isUnknownKey = false := by
  unfold SearchCriteria.from_dict
  cases hf : data.find? (fun f => f.isUnknownKey) with
  | none =>
      constructor
      · intro _ f hfmem
        have := List.find?_eq_none.mp hf f hfmem
        simpa using this
      · intro _
        exact ⟨_, rfl⟩
  | some f =>
      constructor
      · rintro ⟨c, hc⟩
        exact absurd hc (by simp)
      · intro h
        have hmem : f ∈ data := List.mem_of_find?_eq_some hf
        have hkey : f.isUnknownKey = true := by
          have := List.find?_some hf
          simpa using this
        exact absurd (h f hmem) (by simp [hkey])

/-- Witness for the amended C3: a mapping with only recognized keys builds
criteria, and the converse direction recovers that its keys are known. -/
theorem from_dict_ok_iff_all_keys_known_witness :
    (∃ c, SearchCriteria.from_dict
      [CriteriaField.min_area_m2 5000, CriteriaField.required_services ["electricidad"]] =
        Except.ok c) :=
  (from_dict_ok_iff_all_keys_known _).mpr (by decide)

/-! ### C4 -/

/-- C4: for every criteria and `top_n ≥ 1`, `search` returns a sequence of
length `min(top_n, number of repository listings matching the criteria)`; in
particular the empty sequence, not an error, when nothing survives. -/
theorem search_length_eq_min (A : RealEstateSearchAgent) (C : SearchCriteria)
    (n : ℕ) (_h : 1 ≤ n) :
    (A.search C n).length =
      min n ((A._listings.filter (fun L => C.matches L)).length) := by
  unfold RealEstateSearchAgent.search RealEstateSearchAgent.candidateResults
  simp [List.length_take]

/-- Witness for C4: a two-listing repository, an area threshold that only one
listing meets, and `top_n = 1`. -/
theorem search_length_eq_min_witness :
    1 ≤ 1 ∧
    ((RealEstateSearchAgent.mk [listingA, listingSmall]).search
        { min_area_m2 := 5000 } 1).length =
      min 1 (([listingA, listingSmall].filter
        (fun L => SearchCriteria.matches { min_area_m2 := 5000 } L)).length) :=
  ⟨le_refl 1,
   search_length_eq_min (RealEstateSearchAgent.mk [listingA, listingSmall])
     { min_area_m2 := 5000 } 1 (le_refl 1)⟩

/-! ### C5 -/

/-- C5: for every criteria and `top_n ≥ 1`, the sequence returned by `search`
is sorted in non-increasing order of score, and results of equal score keep
the relative order their listings have in the repository: for every score s,
the equal-score slice of the output is an initial segment of the equal-score
slice of the candidate list, which is in repository order. -/
theorem search_sorted_and_stable (A : RealEstateSearchAgent) (C : SearchCriteria)
    (n : ℕ) (_h : 1 ≤ n) :
    ((A.search C n).Pairwise (fun a b => b.score ≤ a.score)) ∧
    (∀ s : ℚ, ∃ t : List SearchResult,
      (A.search C n).filter (fun r => decide (r.score = s)) ++ t =
        (A.candidateResults C).filter (fun r => decide (r.score = s))) := by
  have trans : ∀ (a b c : SearchResult),
      resultLe a b → resultLe b c → resultLe a c := by
    intro a b c hab hbc
    simp only [resultLe, decide_eq_true_eq] at *
    exact le_trans hbc hab
  have total : ∀ (a b : SearchResult), resultLe a b || resultLe b a := by
    intro a b
    simp only [resultLe, Bool.or_eq_true, decide_eq_true_eq]
    exact le_total b.score a.score
  constructor
  · have hs : ((A.candidateResults C).mergeSort resultLe).Pairwise
        (fun a b => resultLe a b = true) :=
      List.sorted_mergeSort trans total (A.candidateResults C)
    have htake : (A.search C n).Pairwise (fun a b => resultLe a b = true) := by
      unfold RealEstateSearchAgent.search
      exact List.Pairwise.sublist (List.take_sublist n _) hs
    exact htake.imp (fun hab => by
      simpa only [resultLe, decide_eq_true_eq] using hab)
  · intro s
    set p : SearchResult → Bool := fun r => decide (r.score = s) with hp
    set cand := A.candidateResults C with hcand
    set sorted := cand.mergeSort resultLe with hsorted
    have hApw : (cand.filter p).Pairwise (fun a b => resultLe a b = true) := by
      apply List.pairwise_of_forall_mem_list
      intro a ha b hb
      have ha' : a.score = s := by
        have := List.of_mem_filter ha
        simpa [hp] using this
      have hb' : b.score = s := by
        have := List.of_mem_filter hb
        simpa [hp] using this
      simp [resultLe, ha', hb']
    have hsubSorted : List.Sublist (cand.filter p) sorted :=
      List.sublist_mergeSort trans total hApw (List.filter_sublist cand)
    have hAeq : (cand.filter p).filter p = cand.filter p := by
      apply List.filter_eq_self.mpr
      intro a ha
      exact List.of_mem_filter ha
    have hAB : List.Sublist (cand.filter p) (sorted.filter p) := by
      have := hsubSorted.filter p
      rwa [hAeq] at this
    have hperm : List.Perm (sorted.filter p) (cand.filter p) :=
      (List.mergeSort_perm cand resultLe).filter p
    have hABeq : cand.filter p = sorted.filter p :=
      hAB.eq_of_length hperm.length_eq.symm
    refine ⟨(sorted.drop n).filter p, ?_⟩
    have hsearch : A.search C n = sorted.take n := by
      unfold RealEstateSearchAgent.search
      rw [← hcand, ← hsorted]
    rw [hsearch, ← List.filter_append, List.take_append_drop, ← hABeq]

/-- Witness for C5: the two-listing repository with the empty criteria and
`top_n = 2`. -/
theorem search_sorted_and_stable_witness :
    ((RealEstateSearchAgent.mk [listingA, listingSmall]).search {} 2).Pairwise
      (fun a b => b.score ≤ a.score) :=
  (search_sorted_and_stable (RealEstateSearchAgent.mk [listingA, listingSmall])
    {} 2 (by norm_num)).1

/-! ### C9: every division of the scoring path is guarded -/

/-- A checked division with a provably nonzero denominator yields the plain
quotient. -/
theorem cdiv_eq_some (a b : ℚ) (hb : b ≠ 0) : cdiv a b = some (a / b) := by
  simp [cdiv, hb]

/-- The required-services coverage never divides by zero. -/
theorem requiredCoverageChecked_eq (L : Listing) (C : SearchCriteria) :
    requiredCoverageChecked L C = some (requiredCoverage L C) := by
  unfold requiredCoverageChecked requiredCoverage
  cases hreq : (lowerSet C.required_services).isEmpty with
  | true => simp [hreq]
  | false =>
      have hne : lowerSet C.required_services ≠ [] := by
        simpa [List.isEmpty_iff] using hreq
      have hlen0 : (lowerSet C.required_services).length ≠ 0 := by
        simpa [List.length_eq_zero] using hne
      have hlen : ((lowerSet C.required_services).length : ℚ) ≠ 0 := by
        exact_mod_cast hlen0
      simp [hreq, cdiv_eq_some _ _ hlen]

/-- The preferred-services ratio never divides by zero. -/
theorem preferredCoverageChecked_eq (L : Listing) (C : SearchCriteria) :
    preferredCoverageChecked L C = some (preferredCoverage L C) := by
  unfold preferredCoverageChecked preferredCoverage
  cases hpre : (lowerSet C.preferred_services).isEmpty with
  | true => simp [hpre]
  | false =>
      have hne : lowerSet C.preferred_services ≠ [] := by
        simpa [List.isEmpty_iff] using hpre
      have hlen0 : (lowerSet C.preferred_services).length ≠ 0 := by
        simpa [List.length_eq_zero] using hne
      have hlen : ((lowerSet C.preferred_services).length : ℚ) ≠ 0 := by
        exact_mod_cast hlen0
      simp [hpre, cdiv_eq_some _ _ hlen]

/-- The services dimension never divides by zero. -/
theorem servicesScoreChecked_eq (L : Listing) (C : SearchCriteria) :
    servicesScoreChecked L C = some (servicesScore L C) := by
  unfold servicesScoreChecked servicesScore
  rw [requiredCoverageChecked_eq, preferredCoverageChecked_eq]
  rfl

/-- The price dimension never divides by zero: both ratio branches are
guarded by truthiness of the corresponding cap. -/
theorem priceComponentChecked_eq (L : Listing) (C : SearchCriteria) :
    priceComponentChecked L C = some (priceComponent L C) := by
  unfold priceComponentChecked priceComponent
  have htwo : (2 : ℚ) ≠ 0 := by norm_num
  cases hm : C.max_total_price with
  | none =>
      cases hm2 : C.max_price_per_m2 with
      | none => rfl
      | some m2 =>
          by_cases h2 : m2 = 0
          · simp [h2]
          · simp [h2, cdiv_eq_some _ _ h2, cdiv_eq_some _ _ htwo]
  | some m =>
      by_cases h1 : m = 0
      · cases hm2 : C.max_price_per_m2 with
        | none => simp [h1]
        | some m2 =>
            by_cases h2 : m2 = 0
            · simp [h1, h2]
            · simp [h1, h2, cdiv_eq_some _ _ h2, cdiv_eq_some _ _ htwo]
      · cases hm2 : C.max_price_per_m2 with
        | none => simp [h1, cdiv_eq_some _ _ h1]
        | some m2 =>
            by_cases h2 : m2 = 0
            · simp [h1, h2, cdiv_eq_some _ _ h1]
            · simp [h1, h2, cdiv_eq_some _ _ h1, cdiv_eq_some _ _ h2,
                cdiv_eq_some _ _ htwo]

/-- Per-mode availability never divides by zero (its divisors are the
constants 10 and 50). -/
theorem modeAvailabilityChecked_eq (mode : String) (data : List (String × TVal)) :
    modeAvailabilityChecked mode data =
      some (RealEstateSearchAgent._mode_availability mode data) := by
  unfold modeAvailabilityChecked RealEstateSearchAgent._mode_availability
  by_cases h1 : pyLower mode = "carretera"
  · cases hd : (data.lookup "distancia_km").bind TVal.asNum with
    | none => simp [h1, hd]
    | some distance =>
        have h10 : (10.0 : ℚ) ≠ 0 := by norm_num
        simp [h1, hd, cdiv_eq_some _ _ h10]
  · by_cases h2 : pyLower mode = "ferrocarril"
    · simp only [h1, h2, if_false, if_true]
      cases hd : data.lookup "ferrocarril" with
      | none => simp
      | some v => cases v <;> simp
    · by_cases h3 : pyLower mode = "aeropuerto"
      · simp only [h1, h2, h3, if_false, if_true]
        cases hd : (data.lookup "aeropuerto_km").bind TVal.asNum with
        | none => simp [hd]
        | some distance =>
            have h50 : (50.0 : ℚ) ≠ 0 := by norm_num
            simp [hd, cdiv_eq_some _ _ h50]
      · simp [h1, h2, h3]

/-- The transport accumulation never divides by zero once the normalizing
total is nonzero. -/
theorem transportAccumChecked_eq (data : List (String × TVal)) (total : ℚ)
    (htot : total ≠ 0) (l : List (String × ℚ)) :
    transportAccumChecked data total l = some (transportAccum data total l) := by
  induction l with
  | nil => rfl
  | cons p rest ih =>
      unfold transportAccumChecked transportAccum
      rw [cdiv_eq_some _ _ htot, modeAvailabilityChecked_eq, ih]
      rfl

/-- The transport score never divides by zero: a zero weight sum is replaced
by 1 before normalization. -/
theorem transportScoreChecked_eq (L : Listing) (importance : List (String × ℚ)) :
    transportScoreChecked L importance =
      some (RealEstateSearchAgent._transport_score L importance) := by
  unfold transportScoreChecked RealEstateSearchAgent._transport_score
  cases himp : importance.isEmpty with
  | true => simp [himp]
  | false =>
      by_cases htot : (importance.map (fun p => p.2)).sum = 0
      · simp only [himp, htot, if_true, if_false, Bool.false_eq_true]
        exact transportAccumChecked_eq _ _ (by norm_num) _
      · simp only [himp, htot, if_true, if_false, Bool.false_eq_true]
        exact transportAccumChecked_eq _ _ htot _

/-- The area dimension never divides by zero: the divisor is floored at 1. -/
theorem areaScoreValueChecked_eq (L : Listing) (C : SearchCriteria) :
    areaScoreValueChecked L C = some (areaScoreValue L C) := by
  unfold areaScoreValueChecked areaScoreValue
  have hM : max C._area_threshold_m2 1 ≠ 0 := by
    have : (0 : ℚ) < max C._area_threshold_m2 1 :=
      lt_of_lt_of_le one_pos (le_max_right _ _)
    exact ne_of_gt this
  have h4 : (4 : ℚ) ≠ 0 := by norm_num
  simp [cdiv, hM, h4]

/-- The whole scoring engine is total: the checked engine always returns
`some` of the unchecked value. -/
theorem scoreListingChecked_eq (L : Listing) (C : SearchCriteria) :
    scoreListingChecked L C = some (RealEstateSearchAgent._score_listing L C) := by
  unfold scoreListingChecked RealEstateSearchAgent._score_listing
  rw [servicesScoreChecked_eq, priceComponentChecked_eq, transportScoreChecked_eq,
    areaScoreValueChecked_eq]
  rfl

/-- The fail-fast scoring loop never fails, and produces exactly the plain
filtered-and-scored candidates. -/
theorem scoreAllChecked_eq (C : SearchCriteria) (l : List Listing) :
    scoreAllChecked C l = some (l.map (fun L =>
      let sb := RealEstateSearchAgent._score_listing L C
      { listing := L, score := sb.1, breakdown := sb.2 : SearchResult })) := by
  induction l with
  | nil => rfl
  | cons a rest ih =>
      unfold scoreAllChecked
      rw [scoreListingChecked_eq, ih]
      rfl

/-- C9: the scoring engine is total — with every division of
`_score_listing`, `_transport_score` and `_mode_availability` replaced by a
checked division that fails on a zero denominator, `searchChecked` still
returns `some` of the plain `search` result for every repository, criteria
and `top_n`; so `search` always returns a (possibly empty) sequence rather
than failing. -/
theorem search_never_fails (A : RealEstateSearchAgent) (C : SearchCriteria) (n : ℕ) :
    A.searchChecked C n = some (A.search C n) := by
  unfold RealEstateSearchAgent.searchChecked RealEstateSearchAgent.search
    RealEstateSearchAgent.candidateResults
  rw [scoreAllChecked_eq]
  rfl
